import Mathlib

/-!
Shallow embedding of `z_scripts/auto_latexmk.py` (the task-discovery
classifier and the parallel compilation engine) together with proofs of the
specification's claims about it.

Conventions of the embedding:
* A text file is modelled as its list of lines (`List String`), each line
  without its trailing newline, exactly as Python's `readline`/iteration
  produces them after `.strip()`.
* Python's substring/startswith/endswith tests on strings are modelled on
  the underlying character lists (`String.data`) via `List.IsInfix`,
  `List.IsPrefix` and `List.IsSuffix`, which match Python's contiguous
  `in` / `str.startswith` / `str.endswith` semantics.
-/

/-- Model of Python's `pat in s` (contiguous substring test). -/
def pyContains (s pat : String) : Bool := decide (pat.data <:+: s.data)

/-- Model of Python's `s.startswith pat`. -/
def pyStartsWith (s pat : String) : Bool := decide (pat.data <+: s.data)

/-- Model of Python's `s.endswith pat`. -/
def pyEndsWith (s pat : String) : Bool := decide (pat.data <:+ s.data)

/-- Model of Python's `s.strip()`: drop whitespace from both ends.
(Python also strips `\x0b`/`\x0c`; those never occur in the inputs we treat.) -/
def pyStrip (s : String) : String :=
  ⟨((s.data.dropWhile Char.isWhitespace).reverse.dropWhile Char.isWhitespace).reverse⟩

/-- Model of Python's `s.lower()` (ASCII case folding, which is all the
classifier's directive prefixes need). -/
def pyLower (s : String) : String := ⟨s.data.map Char.toLower⟩

example : pyContains "abc def" "c d" = true := by decide
example : pyStartsWith "% !TEX program" "% !TEX" = true := by decide
example : pyEndsWith "main.tex" ".tex" = true := by decide
example : ("a" ++ "b" : String) = "ab" := by decide
example : pyLower (pyStrip "  % Auto-LaTeXmk Exclude\t") = "% auto-latexmk exclude" := by decide

/-! ### Classifier: `is_main_tex_file` (auto_latexmk.py lines 143-181)

The Python function reads the first three lines (its loop breaks early only
at end of file, so for a file with fewer lines it simply sees fewer), sets
`exclude_flag` / `include_flag` from directive comments on those lines, then
re-reads the whole content and tests for `\documentclass`.  We receive the
file as its list of lines; since `"\documentclass"` contains no newline, the
whole-content substring test is equivalent to a per-line test. A file-read
error makes the Python function return `False`; the embedding models an
already-read file, which is the only case the claims speak about. -/

/-- Line test setting `exclude_flag`: the stripped, lowercased line starts
with `% auto-latexmk` and mentions `exclude` or `skip`. -/
def isExcludeDirective (line : String) : Bool :=
  let line_strip := pyLower (pyStrip line)
  pyStartsWith line_strip "% auto-latexmk" &&
    (pyContains line_strip "exclude" || pyContains line_strip "skip")

/-- Line test setting `include_flag`: the stripped, lowercased line starts
with `% auto-latexmk` and mentions `include`. -/
def isIncludeDirective (line : String) : Bool :=
  let line_strip := pyLower (pyStrip line)
  pyStartsWith line_strip "% auto-latexmk" && pyContains line_strip "include"

/-- Embedding of `is_main_tex_file`. -/
def is_main_tex_file (lines : List String) (only_include_mode : Bool) : Bool :=
  let first3 := lines.take 3
  let exclude_flag := first3.any isExcludeDirective
  let include_flag := first3.any isIncludeDirective
  let has_docclass := lines.any fun line => pyContains line "\\documentclass"
  if !has_docclass then false
  else if only_include_mode then include_flag
  else !exclude_flag

example :
    is_main_tex_file ["% auto-latexmk exclude", "\\documentclass\x7barticle\x7d"] false
      = false := by decide
example :
    is_main_tex_file ["\\documentclass\x7barticle\x7d"] false = true := by decide
example :
    is_main_tex_file ["\\documentclass\x7barticle\x7d"] true = false := by decide
example :
    is_main_tex_file ["% auto-latexmk include", "\\documentclass\x7barticle\x7d"] true
      = true := by decide
example : is_main_tex_file ["hello", "world"] false = false := by decide

/-! ### Classifier: `get_tex_engine` (auto_latexmk.py lines 184-211)

First pass: read the first line, strip it; if it starts with `% !TEX`,
return the first of `xelatex`/`pdflatex`/`lualatex` it mentions, with the
stripped first line as note.  Otherwise (including when the first line does
start with `% !TEX` but names no supported engine) a second pass re-reads
the file from the start: each line is stripped; hitting `\begin{document}`
stops the scan; a line mentioning `ctex` returns `("xelatex", that line)`.
If nothing decides, the caller's default engine is returned with no note.
A read error likewise returns `(default_engine, none)`. -/

/-- Embedding of the second reading loop of `get_tex_engine` (the `ctex`
scan, which stops at `\begin{document}`). -/
def ctex_scan (default_engine : String) : List String → String × Option String
  | [] => (default_engine, none)
  | l :: rest =>
    let line := pyStrip l
    if pyContains line "\\begin\x7bdocument\x7d" then (default_engine, none)
    else if pyContains line "ctex" then ("xelatex", some line)
    else ctex_scan default_engine rest

/-- Embedding of `get_tex_engine`.  `lines.headD ""` models `f.readline()`
returning `""` at end of file. -/
def get_tex_engine (lines : List String) (default_engine : String) :
    String × Option String :=
  let first_line := pyStrip (lines.headD "")
  if pyStartsWith first_line "% !TEX" then
    if pyContains first_line "xelatex" then ("xelatex", some first_line)
    else if pyContains first_line "pdflatex" then ("pdflatex", some first_line)
    else if pyContains first_line "lualatex" then ("lualatex", some first_line)
    else ctex_scan default_engine lines
  else ctex_scan default_engine lines

example :
    get_tex_engine ["% !TEX program = pdflatex", "\\usepackage\x7bctex\x7d"] "xelatex"
      = ("pdflatex", some "% !TEX program = pdflatex") := by decide
example :
    get_tex_engine ["\\usepackage\x7bctex\x7d"] "pdflatex"
      = ("xelatex", some "\\usepackage\x7bctex\x7d") := by decide
example :
    get_tex_engine ["\\begin\x7bdocument\x7d", "\\usepackage\x7bctex\x7d"] "pdflatex"
      = ("pdflatex", none) := by decide
example : get_tex_engine [] "lualatex" = ("lualatex", none) := by decide
example :
    get_tex_engine ["% !TEX program = ctex"] "pdflatex"
      = ("xelatex", some "% !TEX program = ctex") := by decide

/-- Engine named by the first-line shebang check of `get_tex_engine`, if
any: the line must start with `% !TEX` and the three engine names are
tried in the source's order. -/
def shebangEngine (first_line : String) : Option String :=
  if pyStartsWith first_line "% !TEX" then
    if pyContains first_line "xelatex" then some "xelatex"
    else if pyContains first_line "pdflatex" then some "pdflatex"
    else if pyContains first_line "lualatex" then some "lualatex"
    else none
  else none

/-- First stripped line containing `ctex` that the second reading loop of
`get_tex_engine` reaches before `\begin{document}`, if any. -/
def firstCtexLine : List String → Option String
  | [] => none
  | l :: rest =>
    let line := pyStrip l
    if pyContains line "\\begin\x7bdocument\x7d" then none
    else if pyContains line "ctex" then some line
    else firstCtexLine rest

/-! ### Task Discovery: `generate_compile_tasks` (auto_latexmk.py lines 214-238)

The directory tree handed to `os.walk` is modelled as a `Dir` value; a
snapshot of each regular file's contents travels with it.  `walk` mirrors
`os.walk(root_dir, topdown=True)` with the in-place pruning
`dirs[:] = [d for d in dirs if d not in SKIP_DIRS]`: it yields the current
directory's path and files, then descends into each non-pruned subdirectory
in order.  Paths are joined with `/`; the root path is taken to be absolute
and normalized already, so `os.path.abspath(...).replace("\\", "/")` is the
identity on the joined paths. -/

/-- Snapshot of one regular file: its name and its lines. -/
structure TexSource where
  name : String
  lines : List String
deriving DecidableEq

/-- Snapshot of a directory tree. -/
inductive Dir where
  | mk (name : String) (files : List TexSource) (subdirs : List Dir)

/-- Name component of a directory. -/
def Dir.name : Dir → String
  | .mk n _ _ => n

/-- Files directly inside a directory. -/
def Dir.files : Dir → List TexSource
  | .mk _ fs _ => fs

/-- Immediate subdirectories. -/
def Dir.subdirs : Dir → List Dir
  | .mk _ _ ds => ds

/-- The pruned directory names (`SKIP_DIRS` in the source). -/
def SKIP_DIRS : List String := [".git", ".aux"]

mutual
/-- Embedding of `os.walk(root, topdown=True)` with the source's pruning:
yields `(subdir, files)` pairs in traversal order. -/
def walk (path : String) : Dir → List (String × List TexSource)
  | .mk _ files subdirs => (path, files) :: walkSubdirs path subdirs

/-- Descend into the subdirectories that survive the `SKIP_DIRS` pruning. -/
def walkSubdirs (path : String) : List Dir → List (String × List TexSource)
  | [] => []
  | s :: rest =>
    (if s.name ∈ SKIP_DIRS then [] else walk (path ++ "/" ++ s.name) s)
      ++ walkSubdirs path rest
end

/-- Descriptor of one build task, exactly the dict built at
auto_latexmk.py lines 230-237. -/
structure BuildTask where
  tex_file : String
  subdir : String
  engine : String
  append_info : Option String
deriving DecidableEq

/-- Body of the inner loop of `generate_compile_tasks` for one candidate
`.tex` file: run `is_main_tex_file`; on success run `get_tex_engine`,
normalize `pdflatex` to the short alias `pdf`, and build the task dict. -/
def classify_tex_file (subdir : String) (src : TexSource)
    (default_engine : String) (only_include_mode : Bool) : Option BuildTask :=
  let tex_file := subdir ++ "/" ++ src.name
  if is_main_tex_file src.lines only_include_mode then
    let ep := get_tex_engine src.lines default_engine
    let engine := if ep.1 = "pdflatex" then "pdf" else ep.1
    some { tex_file := tex_file, subdir := subdir, engine := engine,
           append_info := ep.2 }
  else none

/-- Embedding of `generate_compile_tasks`: walk the tree, keep the `*.tex`
files, classify each, and collect the generated tasks in traversal order. -/
def generate_compile_tasks (root_dir : String) (tree : Dir)
    (default_engine : String) (only_include_mode : Bool) : List BuildTask :=
  (walk root_dir tree).flatMap fun entry =>
    (entry.2.filter fun f => pyEndsWith f.name ".tex").filterMap fun f =>
      classify_tex_file entry.1 f default_engine only_include_mode

example :
    generate_compile_tasks "/r"
      (.mk "r" [⟨"a.tex", ["% !TEX pdflatex", "\\documentclass\x7barticle\x7d"]⟩,
                ⟨"notes.txt", ["\\documentclass"]⟩]
        [.mk ".git" [⟨"b.tex", ["\\documentclass"]⟩] []])
      "xelatex" false
      = [{ tex_file := "/r/a.tex", subdir := "/r", engine := "pdf",
           append_info := some "% !TEX pdflatex" }] := by decide

mutual
/-- Extensional equality of two directory-tree snapshots: same directory
name, identical files (names and contents), and pointwise equivalent
subdirectory lists — i.e. the second snapshot observes an unmodified
tree. -/
def dirEquiv : Dir → Dir → Bool
  | .mk n1 f1 s1, .mk n2 f2 s2 =>
    n1 == n2 && decide (f1 = f2) && dirListEquiv s1 s2

/-- Pointwise extensional equality of subdirectory lists. -/
def dirListEquiv : List Dir → List Dir → Bool
  | [], [] => true
  | x :: xs, y :: ys => dirEquiv x y && dirListEquiv xs ys
  | _, _ => false
end

/-! ### Compilation Executor: `run_single_compile_task` (auto_latexmk.py lines 38-113)

The subprocess world outside the program is modelled by `SubprocBehavior`:
either the external tool terminates after `runtime` seconds with an exit
code and stderr text, or invoking it raises (tool missing, permission
denied, ...).  `subprocess.run(..., timeout=180)` turns a run longer than
the timeout into a `TimeoutExpired` exception; `runSubprocess` performs that
translation.  Wall-clock measurement `time.time() - start_time` is the
ambient `elapsed` value.  stderr is modelled as already-decoded text (the
source decodes it as UTF-8).  The Python function ends every control path
in `return task_result`, so the embedding is a total function into
`BuildResult`: no exception escapes. -/

/-- Behavior of one external-tool invocation. -/
inductive SubprocBehavior where
  | terminates (runtime : ℚ) (returncode : Int) (stderr : String)
  | raises (msg : String)
deriving DecidableEq

/-- The fixed timeout passed to `subprocess.run` (seconds). -/
def TIMEOUT_SECONDS : ℚ := 180

/-- Outcome of `subprocess.run(..., timeout=180)` as seen by the caller. -/
inductive SubprocOutcome where
  | completed (returncode : Int) (stderr : String)
  | timedOut
  | raised (msg : String)
deriving DecidableEq

/-- Translation `subprocess.run` performs: a run longer than the timeout
raises `TimeoutExpired`, otherwise the completed process is returned. -/
def runSubprocess (b : SubprocBehavior) : SubprocOutcome :=
  match b with
  | .terminates runtime returncode stderr =>
    if TIMEOUT_SECONDS < runtime then .timedOut
    else .completed returncode stderr
  | .raises msg => .raised msg

/-- Result dict for one task: the task's own entries (`task.copy()`) plus
the entries added by the `update` calls.  `error_msg` is absent exactly in
the success branch. -/
structure BuildResult where
  task : BuildTask
  success : Bool
  elapsed_time : ℚ
  error_msg : Option String
  full_command : List String
deriving DecidableEq

/-- The fixed-shape `latex_full_command` list built at lines 46-56.
`workingDir` is absolute and normalized (see the walk model), so
`os.path.abspath` is the identity here. -/
def latex_full_command (task : BuildTask) : List String :=
  [ "latexmk",
    "-file-line-error",
    "-halt-on-error",
    "-interaction=nonstopmode",
    "-synctex=1",
    "-" ++ task.engine,
    "-auxdir=" ++ (task.subdir ++ "/.aux"),
    "-outdir=" ++ task.subdir,
    task.tex_file ]

/-- Embedding of `run_single_compile_task`: one task, the behavior of its
subprocess, and the measured wall-clock duration of the attempt. -/
def run_single_compile_task (task : BuildTask) (b : SubprocBehavior)
    (elapsed : ℚ) : BuildResult :=
  let cmd := latex_full_command task
  match runSubprocess b with
  | .completed returncode stderr =>
    if returncode = 0 then
      { task := task, success := true, elapsed_time := elapsed,
        error_msg := none, full_command := cmd }
    else
      { task := task, success := false, elapsed_time := elapsed,
        error_msg := some stderr, full_command := cmd }
  | .timedOut =>
    { task := task, success := false, elapsed_time := elapsed,
      error_msg := some "Compilation timed out.", full_command := cmd }
  | .raised msg =>
    { task := task, success := false, elapsed_time := elapsed,
      error_msg := some msg, full_command := cmd }

/-! ### Scheduler: `run_compile_tasks` (auto_latexmk.py lines 116-140)

`as_completed` yields every submitted future exactly once, in completion
order; retrieving `future.result()` either returns the worker's
`BuildResult` or re-raises the exception that broke retrieval.  The input
of the embedding is therefore the list of `(task, retrieval outcome)`
pairs in completion order — a permutation of the submitted batch.

The `except` handler at line 135-136 evaluates
`f"Error running task: {futures[future][0]} ({e})"` before logging.
`futures[future]` is the task dict, whose keys are the four strings set by
`generate_compile_tasks`; indexing it with `0` therefore raises `KeyError`
inside the handler, and nothing catches that, so the whole batch aborts.
The embedding keeps that lookup explicit instead of hard-wiring either
behavior: the handler only proceeds if the integer key `0` is present. -/

/-- Python dict key: the task dict has string keys; the handler looks up
the integer key `0`. -/
inductive PyKey where
  | int (n : Int)
  | str (s : String)
deriving DecidableEq

/-- The keys of the task dict built by `generate_compile_tasks`, in
insertion order. -/
def taskDictKeys : List PyKey :=
  [.str "tex_file", .str "subdir", .str "engine", .str "append_info"]

/-- Loop body of `run_compile_tasks` over the completed futures.
On a successful retrieval the result is appended to `task_results`; on a
failed retrieval the handler formats its log message, which indexes the
task dict with `0` — if that key existed the loop would continue, but it
does not, so the `KeyError` escapes and aborts the batch. -/
def runCompileLoop (acc : List BuildResult) :
    List (BuildTask × Except String BuildResult) →
    Except String (List BuildResult)
  | [] => .ok acc
  | (_, .ok task_result) :: rest => runCompileLoop (acc ++ [task_result]) rest
  | (_, .error _) :: rest =>
    if PyKey.int 0 ∈ taskDictKeys then runCompileLoop acc rest
    else .error "KeyError: 0"

/-- Embedding of `run_compile_tasks` (progress printing is display-only and
not modelled): `.ok results` when the loop finishes, `.error` when the
exception handler itself raises. -/
def run_compile_tasks
    (completions : List (BuildTask × Except String BuildResult)) :
    Except String (List BuildResult) :=
  runCompileLoop [] completions

/-! ### Reporter: `output_to_json_logfile` (auto_latexmk.py lines 288-296)

The function opens `auto-latexmk.log` with mode `"w"` (truncating any prior
log) in the process's current directory and, for each result dict in order,
calls `json.dump(task_result, f, ensure_ascii=False, indent=4)` followed by
`f.write("\n")`.  We model Python's `json.dump` with `indent=4`: an object
or non-empty array opens its bracket, then puts every member on its own
line at the next indent level, separated by `",\n"`, and closes the bracket
on a fresh line at the enclosing indent.  The file's final content is the
concatenation of the per-result serializations, each followed by one
newline. -/

/-- JSON values as `json.dump` sees the result dict.  Numbers carry their
Python `repr` text (the only number serialized is the `elapsed_time`
float). -/
inductive JValue where
  | jstr (s : String)
  | jbool (b : Bool)
  | jnum (rendered : String)
  | jnull
  | jarr (items : List JValue)
  | jobj (members : List (String × JValue))

/-- Hex digit used by the `\uXXXX` escapes of the JSON encoder. -/
def hexDigit (n : Nat) : Char :=
  if n < 10 then Char.ofNat (48 + n) else Char.ofNat (87 + n)

/-- Escape of one character inside a JSON string literal, as Python's
encoder produces it with `ensure_ascii=False`. -/
def pyJsonEscapeChar (c : Char) : String :=
  if c = '"' then "\\\""
  else if c = '\\' then "\\\\"
  else if c = '\n' then "\\n"
  else if c = '\r' then "\\r"
  else if c = '\t' then "\\t"
  else if c = Char.ofNat 8 then "\\b"
  else if c = Char.ofNat 12 then "\\f"
  else if c.toNat < 32 then
    "\\u00" ++ ⟨[hexDigit (c.toNat / 16), hexDigit (c.toNat % 16)]⟩
  else String.singleton c

/-- JSON string literal for `s`. -/
def pyJsonStr (s : String) : String :=
  "\"" ++ String.join (s.data.map pyJsonEscapeChar) ++ "\""

/-- Indentation produced by `indent=4` at nesting depth `level`. -/
def jIndent (level : Nat) : String := ⟨List.replicate (4 * level) ' '⟩

mutual
/-- Serialization of one JSON value at nesting depth `level`
(Python `json.dumps(..., ensure_ascii=False, indent=4)`). -/
def dumpVal (level : Nat) : JValue → String
  | .jstr s => pyJsonStr s
  | .jbool b => if b then "true" else "false"
  | .jnum rendered => rendered
  | .jnull => "null"
  | .jarr [] => "[]"
  | .jarr (x :: xs) =>
    "[\n" ++ dumpArrItems (level + 1) (x :: xs) ++ "\n" ++ jIndent level ++ "]"
  | .jobj [] => "\x7b\x7d"
  | .jobj (kv :: kvs) =>
    "\x7b\n" ++ dumpObjItems (level + 1) (kv :: kvs) ++ "\n" ++ jIndent level
      ++ "\x7d"

/-- Array items, one per line, separated by `",\n"`. -/
def dumpArrItems (level : Nat) : List JValue → String
  | [] => ""
  | [x] => jIndent level ++ dumpVal level x
  | x :: y :: xs =>
    jIndent level ++ dumpVal level x ++ ",\n" ++ dumpArrItems level (y :: xs)

/-- Object members, one per line, separated by `",\n"`. -/
def dumpObjItems (level : Nat) : List (String × JValue) → String
  | [] => ""
  | [kv] => jIndent level ++ pyJsonStr kv.1 ++ ": " ++ dumpVal level kv.2
  | kv :: kv2 :: kvs =>
    jIndent level ++ pyJsonStr kv.1 ++ ": " ++ dumpVal level kv.2 ++ ",\n"
      ++ dumpObjItems level (kv2 :: kvs)
end

/-- Python `repr` of the `elapsed_time` float, modelled for the values the
development evaluates (floats of integral value print with a trailing
`.0`); the line-structure claims do not depend on this text, only on it
containing no newline. -/
def floatRepr (q : ℚ) : String :=
  if q.den = 1 then toString q.num ++ ".0" else toString q.num ++ "/" ++ toString q.den

/-- JSON value of an optional string (`None` serializes as `null`). -/
def optStrToJson : Option String → JValue
  | none => .jnull
  | some s => .jstr s

/-- The result dict as a JSON object, keys in dict insertion order:
the four task keys from `task.copy()`, then the keys added by `update`
(`error_msg` present exactly when the task failed). -/
def resultToJson (r : BuildResult) : JValue :=
  .jobj
    ([ ("tex_file", .jstr r.task.tex_file),
       ("subdir", .jstr r.task.subdir),
       ("engine", .jstr r.task.engine),
       ("append_info", optStrToJson r.task.append_info),
       ("success", .jbool r.success),
       ("elapsed_time", .jnum (floatRepr r.elapsed_time)) ]
      ++ (match r.error_msg with
          | some m => [("error_msg", JValue.jstr m)]
          | none => [])
      ++ [("full_command", .jarr (r.full_command.map JValue.jstr))])

/-- Serialization of one result as written to the log: the `json.dump`
output followed by the explicit `f.write("\n")`. -/
def logRecord (r : BuildResult) : String := dumpVal 0 (resultToJson r) ++ "\n"

/-- The fixed log file name. -/
def LOG_FILENAME : String := "auto-latexmk.log"

/-- Content of `auto-latexmk.log` after `output_to_json_logfile` runs:
mode `"w"` truncates whatever was there before, and the loop writes one
record per result, in order, so the content is exactly the concatenated
records of this batch. -/
def output_to_json_logfile : List BuildResult → String
  | [] => ""
  | task_result :: rest => logRecord task_result ++ output_to_json_logfile rest

example :
    logRecord
      (run_single_compile_task
        { tex_file := "/r/a.tex", subdir := "/r", engine := "pdf",
          append_info := none }
        (.terminates 10 0 "") 2)
      = "\x7b\n    \"tex_file\": \"/r/a.tex\",\n    \"subdir\": \"/r\",\n    \"engine\": \"pdf\",\n    \"append_info\": null,\n    \"success\": true,\n    \"elapsed_time\": 2.0,\n    \"full_command\": [\n        \"latexmk\",\n        \"-file-line-error\",\n        \"-halt-on-error\",\n        \"-interaction=nonstopmode\",\n        \"-synctex=1\",\n        \"-pdf\",\n        \"-auxdir=/r/.aux\",\n        \"-outdir=/r\",\n        \"/r/a.tex\"\n    ]\n\x7d\n" := by
  set_option maxRecDepth 10000 in decide

/-! ## Theorems settling the claims -/

/-- Helper: the `ctex` scan returns the first qualifying line (forcing
`xelatex`) or falls back to the default engine with no note. -/
theorem ctex_scan_eq_firstCtexLine (default_engine : String) (lines : List String) :
    ctex_scan default_engine lines =
      match firstCtexLine lines with
      | some l => ("xelatex", some l)
      | none => (default_engine, none) := by
  induction lines with
  | nil => rfl
  | cons l rest ih =>
    simp only [ctex_scan, firstCtexLine]
    split
    · rfl
    · split
      · rfl
      · exact ih

/-- C4: a file without the `\documentclass` marker is never a main file in
either mode; with the marker, default mode accepts the file exactly when no
line of the first three is a `% auto-latexmk` directive containing
`exclude` or `skip`, and include-only mode accepts it exactly when one of
the first three lines is a `% auto-latexmk` directive containing
`include`. -/
theorem C4_is_main_tex_file_modes (lines : List String) :
    ((lines.any fun line => pyContains line "\\documentclass") = false →
      ∀ only_include_mode, is_main_tex_file lines only_include_mode = false) ∧
    ((lines.any fun line => pyContains line "\\documentclass") = true →
      is_main_tex_file lines false = !(lines.take 3).any isExcludeDirective) ∧
    ((lines.any fun line => pyContains line "\\documentclass") = true →
      is_main_tex_file lines true = (lines.take 3).any isIncludeDirective) := by
  refine ⟨fun h mode => ?_, fun h => ?_, fun h => ?_⟩ <;>
    simp [is_main_tex_file, h]

/-- C4 witness: concrete files exercising all three parts of the claim. -/
theorem C4_is_main_tex_file_modes_witness :
    is_main_tex_file ["hello", "world"] true = false ∧
    is_main_tex_file ["% auto-latexmk skip", "\\documentclass\x7barticle\x7d"] false
      = false ∧
    is_main_tex_file ["% auto-latexmk include", "\\documentclass\x7barticle\x7d"] true
      = true := by
  refine ⟨(C4_is_main_tex_file_modes ["hello", "world"]).1 (by decide) true, ?_, ?_⟩
  · rw [(C4_is_main_tex_file_modes
      ["% auto-latexmk skip", "\\documentclass\x7barticle\x7d"]).2.1 (by decide)]
    decide
  · rw [(C4_is_main_tex_file_modes
      ["% auto-latexmk include", "\\documentclass\x7barticle\x7d"]).2.2 (by decide)]
    decide

/-- C9: when the first three lines carry both an include directive and an
exclude/skip directive, the two flags are computed independently, so the
file is rejected in default mode yet accepted in include-only mode. -/
theorem C9_independent_flags (lines : List String)
    (hdoc : (lines.any fun line => pyContains line "\\documentclass") = true)
    (hinc : (lines.take 3).any isIncludeDirective = true)
    (hexc : (lines.take 3).any isExcludeDirective = true) :
    is_main_tex_file lines false = false ∧
    is_main_tex_file lines true = true := by
  constructor <;> simp [is_main_tex_file, hdoc, hinc, hexc]

/-- C9 witness: a file carrying both directives in its first three lines. -/
theorem C9_independent_flags_witness :
    is_main_tex_file
      ["% auto-latexmk include", "% auto-latexmk exclude",
       "\\documentclass\x7barticle\x7d"] false = false ∧
    is_main_tex_file
      ["% auto-latexmk include", "% auto-latexmk exclude",
       "\\documentclass\x7barticle\x7d"] true = true :=
  C9_independent_flags
    ["% auto-latexmk include", "% auto-latexmk exclude",
     "\\documentclass\x7barticle\x7d"]
    (by decide) (by decide) (by decide)

/-- C5: engine-detection priority.  A first-line `% !TEX` directive naming
a supported engine decides the result outright (independently of every
later line, in particular of any `ctex` token); absent such a directive, a
`ctex` line found before `\begin{document}` forces `xelatex` (independently
of the caller's default); absent both, the caller-supplied default comes
back verbatim with no note. -/
theorem C5_engine_priority (lines : List String) (default_engine : String) :
    (∀ e, shebangEngine (pyStrip (lines.headD "")) = some e →
      get_tex_engine lines default_engine = (e, some (pyStrip (lines.headD "")))) ∧
    (shebangEngine (pyStrip (lines.headD "")) = none →
      ∀ l, firstCtexLine lines = some l →
        get_tex_engine lines default_engine = ("xelatex", some l)) ∧
    (shebangEngine (pyStrip (lines.headD "")) = none →
      firstCtexLine lines = none →
        get_tex_engine lines default_engine = (default_engine, none)) := by
  refine ⟨fun e he => ?_, fun hn l hl => ?_, fun hn hl => ?_⟩
  · unfold get_tex_engine
    unfold shebangEngine at he
    split_ifs at he ⊢ <;> simp_all
  · unfold get_tex_engine
    unfold shebangEngine at hn
    rw [ctex_scan_eq_firstCtexLine, hl]
    split_ifs at hn ⊢ <;> simp_all
  · unfold get_tex_engine
    unfold shebangEngine at hn
    rw [ctex_scan_eq_firstCtexLine, hl]
    split_ifs at hn ⊢ <;> simp_all

/-- C5 witness: the three priority levels at concrete files. -/
theorem C5_engine_priority_witness :
    get_tex_engine ["% !TEX xelatex", "\\usepackage\x7bctex\x7d"] "pdflatex"
      = ("xelatex", some "% !TEX xelatex") ∧
    get_tex_engine ["\\usepackage\x7bctex\x7d"] "pdflatex"
      = ("xelatex", some "\\usepackage\x7bctex\x7d") ∧
    get_tex_engine ["\\usepackage\x7bamsmath\x7d"] "lualatex"
      = ("lualatex", none) :=
  ⟨(C5_engine_priority ["% !TEX xelatex", "\\usepackage\x7bctex\x7d"] "pdflatex").1
      "xelatex" (by decide),
   (C5_engine_priority ["\\usepackage\x7bctex\x7d"] "pdflatex").2.1 (by decide)
      "\\usepackage\x7bctex\x7d" (by decide),
   (C5_engine_priority ["\\usepackage\x7bamsmath\x7d"] "lualatex").2.2
      (by decide) (by decide)⟩

/-- C10: a first line that starts with `% !TEX` but names none of the three
supported engines does not decide detection and does not immediately fall
back to the default: the function proceeds to the `ctex` scan, which either
returns `xelatex` with the matching line as note or, absent a `ctex` token
before `\begin{document}`, the caller-supplied default with no note. -/
theorem C10_shebang_without_engine (lines : List String) (default_engine : String)
    (hsheb : pyStartsWith (pyStrip (lines.headD "")) "% !TEX" = true)
    (hx : pyContains (pyStrip (lines.headD "")) "xelatex" = false)
    (hp : pyContains (pyStrip (lines.headD "")) "pdflatex" = false)
    (hl : pyContains (pyStrip (lines.headD "")) "lualatex" = false) :
    get_tex_engine lines default_engine = ctex_scan default_engine lines ∧
    ((∃ l, firstCtexLine lines = some l ∧
        get_tex_engine lines default_engine = ("xelatex", some l)) ∨
      (firstCtexLine lines = none ∧
        get_tex_engine lines default_engine = (default_engine, none))) := by
  have heq : get_tex_engine lines default_engine = ctex_scan default_engine lines := by
    simp only [get_tex_engine]
    rw [hsheb, hx, hp, hl]
    simp
  refine ⟨heq, ?_⟩
  rw [heq, ctex_scan_eq_firstCtexLine]
  cases hfc : firstCtexLine lines with
  | none => exact Or.inr ⟨rfl, rfl⟩
  | some l => exact Or.inl ⟨l, rfl, rfl⟩

/-- C10 witness: a `% !TEX` first line naming no supported engine; the
`ctex` scan still fires (here on that very line, which contains `ctex`). -/
theorem C10_shebang_without_engine_witness :
    get_tex_engine ["% !TEX program = ctex"] "pdflatex"
      = ctex_scan "pdflatex" ["% !TEX program = ctex"] ∧
    ((∃ l, firstCtexLine ["% !TEX program = ctex"] = some l ∧
        get_tex_engine ["% !TEX program = ctex"] "pdflatex" = ("xelatex", some l)) ∨
      (firstCtexLine ["% !TEX program = ctex"] = none ∧
        get_tex_engine ["% !TEX program = ctex"] "pdflatex" = ("pdflatex", none))) :=
  C10_shebang_without_engine ["% !TEX program = ctex"] "pdflatex"
    (by decide) (by decide) (by decide) (by decide)

/-- C2: `run_single_compile_task` is a total function into `BuildResult` —
no exception escapes it — and maps every subprocess behavior as specified:
exit code 0 within the timeout gives success; a nonzero exit code gives
failure with the captured stderr as diagnostic; a run longer than the fixed
180-second timeout gives failure with the fixed message
`Compilation timed out.`; any other invocation failure gives failure with
that failure's description.  Every branch records the measured wall-clock
time and the exact `latex_full_command` vector. -/
theorem C2_executor_outcomes (task : BuildTask) (elapsed : ℚ) :
    (∀ runtime stderr, runtime ≤ TIMEOUT_SECONDS →
      run_single_compile_task task (.terminates runtime 0 stderr) elapsed =
        { task := task, success := true, elapsed_time := elapsed,
          error_msg := none, full_command := latex_full_command task }) ∧
    (∀ runtime returncode stderr, runtime ≤ TIMEOUT_SECONDS → returncode ≠ 0 →
      run_single_compile_task task (.terminates runtime returncode stderr) elapsed =
        { task := task, success := false, elapsed_time := elapsed,
          error_msg := some stderr, full_command := latex_full_command task }) ∧
    (∀ runtime returncode stderr, TIMEOUT_SECONDS < runtime →
      run_single_compile_task task (.terminates runtime returncode stderr) elapsed =
        { task := task, success := false, elapsed_time := elapsed,
          error_msg := some "Compilation timed out.",
          full_command := latex_full_command task }) ∧
    (∀ msg,
      run_single_compile_task task (.raises msg) elapsed =
        { task := task, success := false, elapsed_time := elapsed,
          error_msg := some msg, full_command := latex_full_command task }) := by
  refine ⟨fun runtime stderr h => ?_, fun runtime rc stderr h hrc => ?_,
    fun runtime rc stderr h => ?_, fun msg => ?_⟩
  · simp [run_single_compile_task, runSubprocess, not_lt.mpr h]
  · simp [run_single_compile_task, runSubprocess, not_lt.mpr h, hrc]
  · simp [run_single_compile_task, runSubprocess, h]
  · simp [run_single_compile_task, runSubprocess]

/-- C2 witness: the four outcome branches at one concrete task. -/
theorem C2_executor_outcomes_witness :
    (run_single_compile_task
        { tex_file := "/r/a.tex", subdir := "/r", engine := "pdf",
          append_info := none }
        (.terminates 5 0 "") 5 =
      { task := { tex_file := "/r/a.tex", subdir := "/r", engine := "pdf",
                  append_info := none },
        success := true, elapsed_time := 5, error_msg := none,
        full_command := latex_full_command
          { tex_file := "/r/a.tex", subdir := "/r", engine := "pdf",
            append_info := none } }) ∧
    (run_single_compile_task
        { tex_file := "/r/a.tex", subdir := "/r", engine := "pdf",
          append_info := none }
        (.terminates 5 1 "latexmk: error") 5 =
      { task := { tex_file := "/r/a.tex", subdir := "/r", engine := "pdf",
                  append_info := none },
        success := false, elapsed_time := 5,
        error_msg := some "latexmk: error",
        full_command := latex_full_command
          { tex_file := "/r/a.tex", subdir := "/r", engine := "pdf",
            append_info := none } }) ∧
    (run_single_compile_task
        { tex_file := "/r/a.tex", subdir := "/r", engine := "pdf",
          append_info := none }
        (.terminates 181 0 "") 180 =
      { task := { tex_file := "/r/a.tex", subdir := "/r", engine := "pdf",
                  append_info := none },
        success := false, elapsed_time := 180,
        error_msg := some "Compilation timed out.",
        full_command := latex_full_command
          { tex_file := "/r/a.tex", subdir := "/r", engine := "pdf",
            append_info := none } }) ∧
    (run_single_compile_task
        { tex_file := "/r/a.tex", subdir := "/r", engine := "pdf",
          append_info := none }
        (.raises "FileNotFoundError: latexmk") 0 =
      { task := { tex_file := "/r/a.tex", subdir := "/r", engine := "pdf",
                  append_info := none },
        success := false, elapsed_time := 0,
        error_msg := some "FileNotFoundError: latexmk",
        full_command := latex_full_command
          { tex_file := "/r/a.tex", subdir := "/r", engine := "pdf",
            append_info := none } }) := by
  refine ⟨?_, ?_, ?_, ?_⟩
  · exact (C2_executor_outcomes _ 5).1 5 "" (by norm_num [TIMEOUT_SECONDS])
  · exact (C2_executor_outcomes _ 5).2.1 5 1 "latexmk: error"
      (by norm_num [TIMEOUT_SECONDS]) (by norm_num)
  · exact (C2_executor_outcomes _ 180).2.2.1 181 0 ""
      (by norm_num [TIMEOUT_SECONDS])
  · exact (C2_executor_outcomes _ 0).2.2.2 "FileNotFoundError: latexmk"

/-- Helper: when every retrieval in the completion list succeeds, the
scheduler loop returns `.ok` and appends exactly one result per
completion. -/
theorem runCompileLoop_all_ok
    (completions : List (BuildTask × Except String BuildResult))
    (hok : ∀ c ∈ completions, (c.2).isOk = true) :
    ∀ acc, ∃ results, runCompileLoop acc completions = .ok results ∧
      results.length = acc.length + completions.length := by
  induction completions with
  | nil => exact fun acc => ⟨acc, rfl, by simp [runCompileLoop]⟩
  | cons c rest ih =>
    intro acc
    obtain ⟨t, o⟩ := c
    cases o with
    | error e =>
      have := hok (t, .error e) (List.mem_cons_self _ _)
      simp [Except.isOk, Except.toBool] at this
    | ok r =>
      obtain ⟨results, h1, h2⟩ :=
        ih (fun c hc => hok c (List.mem_cons_of_mem _ hc)) (acc ++ [r])
      refine ⟨results, h1, ?_⟩
      simp at h2
      simp [h2]
      omega

/-- C3: when no worker-retrieval error occurs, the scheduler returns
normally with exactly one `BuildResult` per submitted task
(`as_completed` yields the submitted futures in some completion order,
modelled as a permutation of the batch), so no task is silently dropped. -/
theorem C3_one_result_per_task (tasks : List BuildTask)
    (completions : List (BuildTask × Except String BuildResult))
    (hperm : (completions.map Prod.fst).Perm tasks)
    (hok : ∀ c ∈ completions, (c.2).isOk = true) :
    ∃ results, run_compile_tasks completions = .ok results ∧
      results.length = tasks.length := by
  obtain ⟨results, h1, h2⟩ := runCompileLoop_all_ok completions hok []
  refine ⟨results, h1, ?_⟩
  have hl := hperm.length_eq
  simp at hl h2
  omega

/-- C3 witness: a two-task batch whose results complete in reversed order,
both retrievals succeeding. -/
theorem C3_one_result_per_task_witness :
    ∃ results,
      run_compile_tasks
        [({ tex_file := "/r/b.tex", subdir := "/r", engine := "xelatex",
            append_info := none },
          .ok (run_single_compile_task
            { tex_file := "/r/b.tex", subdir := "/r", engine := "xelatex",
              append_info := none } (.terminates 5 0 "") 5)),
         ({ tex_file := "/r/a.tex", subdir := "/r", engine := "xelatex",
            append_info := none },
          .ok (run_single_compile_task
            { tex_file := "/r/a.tex", subdir := "/r", engine := "xelatex",
              append_info := none } (.terminates 7 1 "err") 7))]
        = .ok results ∧
      results.length = 2 :=
  C3_one_result_per_task
    [{ tex_file := "/r/a.tex", subdir := "/r", engine := "xelatex",
       append_info := none },
     { tex_file := "/r/b.tex", subdir := "/r", engine := "xelatex",
       append_info := none }]
    [({ tex_file := "/r/b.tex", subdir := "/r", engine := "xelatex",
        append_info := none },
      .ok (run_single_compile_task
        { tex_file := "/r/b.tex", subdir := "/r", engine := "xelatex",
          append_info := none } (.terminates 5 0 "") 5)),
     ({ tex_file := "/r/a.tex", subdir := "/r", engine := "xelatex",
        append_info := none },
      .ok (run_single_compile_task
        { tex_file := "/r/a.tex", subdir := "/r", engine := "xelatex",
          append_info := none } (.terminates 7 1 "err") 7))]
    (by decide) (by decide)

/-- C1 (claim refuted by the code): when retrieving one task's result
raises, the `except` handler at auto_latexmk.py line 136 formats
`f"Error running task: {futures[future][0]} ({e})"`; `futures[future]` is
the task dict, whose keys are the four strings of `taskDictKeys`, so the
index `[0]` raises `KeyError` inside the handler and nothing catches it.
The batch aborts, and the other task's successfully retrieved result is
never returned — contrary to the claimed catch-log-continue behavior.
Here the first completion's retrieval fails and the second retrieval
succeeded, yet the scheduler yields no result list at all. -/
theorem C1_retrieval_error_aborts_batch :
    run_compile_tasks
      [({ tex_file := "/r/a.tex", subdir := "/r", engine := "xelatex",
          append_info := none },
        .error "BrokenProcessPool: a child process terminated abruptly"),
       ({ tex_file := "/r/b.tex", subdir := "/r", engine := "xelatex",
          append_info := none },
        .ok (run_single_compile_task
          { tex_file := "/r/b.tex", subdir := "/r", engine := "xelatex",
            append_info := none } (.terminates 5 0 "") 5))]
      = .error "KeyError: 0" ∧
    (run_compile_tasks
      [({ tex_file := "/r/a.tex", subdir := "/r", engine := "xelatex",
          append_info := none },
        .error "BrokenProcessPool: a child process terminated abruptly"),
       ({ tex_file := "/r/b.tex", subdir := "/r", engine := "xelatex",
          append_info := none },
        .ok (run_single_compile_task
          { tex_file := "/r/b.tex", subdir := "/r", engine := "xelatex",
            append_info := none } (.terminates 5 0 "") 5))]).isOk = false :=
  ⟨rfl, rfl⟩

/-- C6 counterexample: the source serializes with `json.dump(..., indent=4)`,
which pretty-prints, so one record does NOT occupy a single line of the
file: already the serialization of this successful result of a concrete
task contains newline characters inside the JSON object (before the
explicit trailing `"\n"` the loop writes). -/
theorem C6_record_is_multiline :
    '\n' ∈ (dumpVal 0 (resultToJson
      (run_single_compile_task
        { tex_file := "/r/a.tex", subdir := "/r", engine := "pdf",
          append_info := none }
        (.terminates 10 0 "") 2))).data := by
  set_option maxRecDepth 10000 in decide

/-- C6 as amended: `output_to_json_logfile` writes every `BuildResult` of
the batch — successful ones included — to the fixed-name log
`auto-latexmk.log` in the process's current directory, overwriting any
prior log, and each result is serialized as one self-contained,
pretty-printed (indent 4, hence multi-line) JSON object followed by a
newline: the serialization of every result of the batch appears verbatim
in the file content. -/
theorem C6_every_result_logged (tasks_results : List BuildResult)
    (r : BuildResult) (hr : r ∈ tasks_results) :
    LOG_FILENAME = "auto-latexmk.log" ∧
    ∃ pre post, output_to_json_logfile tasks_results
      = pre ++ (dumpVal 0 (resultToJson r) ++ "\n") ++ post := by
  refine ⟨rfl, ?_⟩
  induction tasks_results with
  | nil => cases hr
  | cons head rest ih =>
    rcases List.mem_cons.mp hr with h | h
    · subst h
      refine ⟨"", output_to_json_logfile rest, ?_⟩
      rw [String.empty_append]
      rfl
    · obtain ⟨pre, post, hp⟩ := ih h
      refine ⟨logRecord head ++ pre, post, ?_⟩
      show logRecord head ++ output_to_json_logfile rest = _
      rw [hp]
      simp only [String.append_assoc]

/-- C6 witness: a concrete two-result batch (one success, one failure);
the failing record appears verbatim in the written file. -/
theorem C6_every_result_logged_witness :
    LOG_FILENAME = "auto-latexmk.log" ∧
    ∃ pre post,
      output_to_json_logfile
        [run_single_compile_task
          { tex_file := "/r/a.tex", subdir := "/r", engine := "pdf",
            append_info := none } (.terminates 10 0 "") 2,
         run_single_compile_task
          { tex_file := "/r/b.tex", subdir := "/r", engine := "xelatex",
            append_info := none } (.terminates 12 1 "err") 3]
      = pre ++ (dumpVal 0 (resultToJson
          (run_single_compile_task
            { tex_file := "/r/b.tex", subdir := "/r", engine := "xelatex",
              append_info := none } (.terminates 12 1 "err") 3)) ++ "\n") ++ post :=
  C6_every_result_logged
    [run_single_compile_task
      { tex_file := "/r/a.tex", subdir := "/r", engine := "pdf",
        append_info := none } (.terminates 10 0 "") 2,
     run_single_compile_task
      { tex_file := "/r/b.tex", subdir := "/r", engine := "xelatex",
        append_info := none } (.terminates 12 1 "err") 3]
    (run_single_compile_task
      { tex_file := "/r/b.tex", subdir := "/r", engine := "xelatex",
        append_info := none } (.terminates 12 1 "err") 3)
    (by decide)

/-- Helper: no `-auxdir=...` flag can be the string `-pdflatex`. -/
theorem auxdir_flag_ne (y : String) : "-auxdir=" ++ y ≠ "-pdflatex" := by
  intro h
  have hd : ("-auxdir=" ++ y).data = "-pdflatex".data := congrArg String.data h
  rw [String.data_append] at hd
  have hpre : (['-', 'a'] : List Char) <+: "-pdflatex".data := by
    rw [← hd]
    refine ⟨"uxdir=".data ++ y.data, ?_⟩
    rw [← List.append_assoc]
    rfl
  exact absurd hpre (by decide)

/-- Helper: no `-outdir=...` flag can be the string `-pdflatex`. -/
theorem outdir_flag_ne (y : String) : "-outdir=" ++ y ≠ "-pdflatex" := by
  intro h
  have hd : ("-outdir=" ++ y).data = "-pdflatex".data := congrArg String.data h
  rw [String.data_append] at hd
  have hpre : (['-', 'o'] : List Char) <+: "-pdflatex".data := by
    rw [← hd]
    refine ⟨"utdir=".data ++ y.data, ?_⟩
    rw [← List.append_assoc]
    rfl
  exact absurd hpre (by decide)

/-- Helper: a joined path (it contains a `/`) can not be the string
`-pdflatex`. -/
theorem joined_path_ne (x y : String) : x ++ "/" ++ y ≠ "-pdflatex" := by
  intro h
  have hd : ((x ++ "/") ++ y).data = "-pdflatex".data := congrArg String.data h
  rw [String.data_append, String.data_append] at hd
  have hm : '/' ∈ "-pdflatex".data := by
    rw [← hd]
    exact List.mem_append.mpr (Or.inl (List.mem_append.mpr (Or.inr (by decide))))
  exact absurd hm (by decide)

/-- C7: a file that passes the main-file test and whose detected engine is
`pdflatex` — via a first-line directive or as the caller's default — gets
the canonical short alias `pdf` as its task's engine field, and the
generated command line contains the `-pdf` flag and never the string
`-pdflatex`. -/
theorem C7_pdflatex_normalized (subdir : String) (src : TexSource)
    (default_engine : String) (only_include_mode : Bool) (t : BuildTask)
    (hc : classify_tex_file subdir src default_engine only_include_mode = some t)
    (hp : (get_tex_engine src.lines default_engine).1 = "pdflatex") :
    t.engine = "pdf" ∧
    (latex_full_command t).contains "-pdf" = true ∧
    (latex_full_command t).contains "-pdflatex" = false := by
  simp only [classify_tex_file] at hc
  rw [hp] at hc
  split at hc
  · simp only [Option.some.injEq] at hc
    subst hc
    have h1 := auxdir_flag_ne (subdir ++ "/.aux")
    have h2 := outdir_flag_ne subdir
    have h3 := joined_path_ne subdir src.name
    refine ⟨rfl, ?_, ?_⟩ <;>
      simp [latex_full_command, h1, h2, h3, Ne.symm h1, Ne.symm h2, Ne.symm h3]
  · exact absurd hc (by simp)

/-- C7 witness: a concrete file selecting `pdflatex` through its first-line
directive while the caller's default is `xelatex`. -/
theorem C7_pdflatex_normalized_witness :
    ({ tex_file := "/r/a.tex", subdir := "/r", engine := "pdf",
       append_info := some "% !TEX pdflatex" } : BuildTask).engine = "pdf" ∧
    (latex_full_command
      { tex_file := "/r/a.tex", subdir := "/r", engine := "pdf",
        append_info := some "% !TEX pdflatex" }).contains "-pdf" = true ∧
    (latex_full_command
      { tex_file := "/r/a.tex", subdir := "/r", engine := "pdf",
        append_info := some "% !TEX pdflatex" }).contains "-pdflatex" = false :=
  C7_pdflatex_normalized "/r"
    ⟨"a.tex", ["% !TEX pdflatex", "\\documentclass\x7barticle\x7d"]⟩
    "xelatex" false
    { tex_file := "/r/a.tex", subdir := "/r", engine := "pdf",
      append_info := some "% !TEX pdflatex" }
    (by decide) (by decide)

mutual
/-- Helper: extensionally equal snapshots are equal trees. -/
theorem dirEquiv_eq : ∀ d1 d2, dirEquiv d1 d2 = true → d1 = d2
  | .mk n1 f1 s1, .mk n2 f2 s2, h => by
    simp only [dirEquiv, Bool.and_eq_true, beq_iff_eq, decide_eq_true_eq] at h
    obtain ⟨⟨hn, hf⟩, hs⟩ := h
    rw [hn, hf, dirListEquiv_eq s1 s2 hs]

/-- Helper: pointwise extensionally equal subdirectory lists are equal. -/
theorem dirListEquiv_eq : ∀ l1 l2, dirListEquiv l1 l2 = true → l1 = l2
  | [], [], _ => rfl
  | [], _ :: _, h => by simp [dirListEquiv] at h
  | _ :: _, [], h => by simp [dirListEquiv] at h
  | x :: xs, y :: ys, h => by
    simp only [dirListEquiv, Bool.and_eq_true] at h
    rw [dirEquiv_eq x y h.1, dirListEquiv_eq xs ys h.2]
end

/-- C8: Task Discovery is deterministic and reads only file contents and
the two caller-supplied parameters.  Running it twice with the same root
directory, default engine and mode over two snapshots of an unmodified
tree (`dirEquiv`) yields identical task sequences — the same
`tex_file`/`subdir`/`engine` triple for each task, in the same traversal
order — and the traversal itself is identical.  (The embedding of
`generate_compile_tasks` is a pure function: it performs no write
effects.) -/
theorem C8_discovery_deterministic (root_dir : String) (t1 t2 : Dir)
    (default_engine : String) (only_include_mode : Bool)
    (h : dirEquiv t1 t2 = true) :
    generate_compile_tasks root_dir t1 default_engine only_include_mode
      = generate_compile_tasks root_dir t2 default_engine only_include_mode ∧
    walk root_dir t1 = walk root_dir t2 := by
  rw [dirEquiv_eq t1 t2 h]
  exact ⟨rfl, rfl⟩

/-- C8 witness: two snapshots of the same small tree. -/
theorem C8_discovery_deterministic_witness :
    generate_compile_tasks "/r"
      (.mk "r" [⟨"a.tex", ["\\documentclass\x7barticle\x7d"]⟩]
        [.mk "sub" [⟨"b.tex", ["% auto-latexmk skip", "\\documentclass"]⟩] []])
      "xelatex" false
      = generate_compile_tasks "/r"
        (.mk "r" [⟨"a.tex", ["\\documentclass\x7barticle\x7d"]⟩]
          [.mk "sub" [⟨"b.tex", ["% auto-latexmk skip", "\\documentclass"]⟩] []])
        "xelatex" false ∧
    walk "/r"
      (.mk "r" [⟨"a.tex", ["\\documentclass\x7barticle\x7d"]⟩]
        [.mk "sub" [⟨"b.tex", ["% auto-latexmk skip", "\\documentclass"]⟩] []])
      = walk "/r"
        (.mk "r" [⟨"a.tex", ["\\documentclass\x7barticle\x7d"]⟩]
          [.mk "sub" [⟨"b.tex", ["% auto-latexmk skip", "\\documentclass"]⟩] []]) :=
  C8_discovery_deterministic "/r"
    (.mk "r" [⟨"a.tex", ["\\documentclass\x7barticle\x7d"]⟩]
      [.mk "sub" [⟨"b.tex", ["% auto-latexmk skip", "\\documentclass"]⟩] []])
    (.mk "r" [⟨"a.tex", ["\\documentclass\x7barticle\x7d"]⟩]
      [.mk "sub" [⟨"b.tex", ["% auto-latexmk skip", "\\documentclass"]⟩] []])
    "xelatex" false (by decide)
